import Mathlib

/-!
Shallow embedding of the Trade-in reconciliation engine
(`Delivery_API/invoice_tracker.py`, `Delivery_API/cornerlogis_production_client.py`,
`Delivery_API/shopby_delivery_client.py`).

Network I/O is modelled by explicit oracle parameters (`lookup`, `http`, `fetch`):
a value of such a parameter describes what the remote API would answer, and the
Lean functions reproduce the Python control flow over those answers.  Python
dictionaries are modelled as structures holding exactly the fields the engine
reads; `dict.get` with a possibly missing key becomes `Option`.
-/

/-- Python truthiness of an optional string (`None` and `""` are falsy). -/
def pyTruthy : Option String → Bool
  | none => false
  | some s => !(s == "")

/-- Prefix of `s` strictly before the first occurrence of `pat`, or `none`
when `pat` does not occur in `s`.  This is `s.split(pat)[0]` guarded by
`pat in s` in Python, on character lists. -/
def prefixBefore (pat : List Char) : List Char → Option (List Char)
  | [] => if pat.isEmpty then some [] else none
  | c :: rest =>
    if pat.isPrefixOf (c :: rest) then some []
    else (prefixBefore pat rest).map (fun p => c :: p)

/-- Python `pat in s` membership test for strings, via `prefixBefore`. -/
def pyContains (pat : List Char) (s : List Char) : Bool :=
  (prefixBefore pat s).isSome

/-- Python `str.strip` on the characters Lean classifies as whitespace. -/
def pyStrip (s : String) : String :=
  ⟨((s.toList.dropWhile Char.isWhitespace).reverse.dropWhile Char.isWhitespace).reverse⟩

/-- Whether Python `int(x)` succeeds on an optional string: `int(None)`
raises `TypeError`, and a string that is not an optionally signed decimal
numeral (after stripping surrounding whitespace) raises `ValueError`.
Underscore digit grouping, which CPython also accepts, is not modelled —
no claim depends on it. -/
def intParseOk : Option String → Bool
  | none => false
  | some s =>
    let t := (pyStrip s).toList
    let ds := match t with
      | '+' :: rest => rest
      | '-' :: rest => rest
      | _ => t
    !ds.isEmpty && ds.all Char.isDigit

/-- `CornerlogisProductionClient.extract_shopby_order_no`: cut the composite
`companyOrderId` at the first occurrence of the delimiter `" (N:"`, or return
it unchanged when the delimiter is absent. -/
def extract_shopby_order_no (company_order_id : String) : String :=
  match prefixBefore " (N:".toList company_order_id.toList with
  | some p => ⟨p⟩
  | none => company_order_id

example : extract_shopby_order_no "202508141241584834 (N: 2025081427063970)"
    = "202508141241584834" := by decide

example : extract_shopby_order_no "202508141241584834" = "202508141241584834" := by decide

/-! ## Data model

Structures mirror the dictionaries the engine reads.  Fields the engine never
reads (e.g. `cornerOrderId`, `orderAt`, `customer`, `orderItem` on the
cornerlogis side) are pass-through payload and are omitted. -/

/-- One entry of `deliveryGroups[i].orderProducts[j].orderProductOptions`. -/
structure OrderProductOption where
  orderStatusType : Option String
deriving DecidableEq, Repr

/-- One entry of `deliveryGroups[i].orderProducts`. -/
structure OrderProduct where
  orderProductOptions : List OrderProductOption
deriving DecidableEq, Repr

/-- One entry of a Shopby order's `deliveryGroups`. -/
structure DeliveryGroup where
  deliveryNo : Option String
  invoiceNo : Option String
  orderProducts : List OrderProduct
deriving DecidableEq, Repr

/-- A Shopby order detail as returned by `get_order_details`: the listed
order dictionary with the `originalDeliveryNo` key added. -/
structure ShopbyOrderDetail where
  orderNo : String
  payType : Option String
  deliveryGroups : List DeliveryGroup
  originalDeliveryNo : Option String
deriving DecidableEq, Repr

/-- A cornerlogis order record as produced by
`CornerlogisProductionClient.get_orders_with_new_invoices` (the `order_info`
dictionary). -/
structure CornerOrder where
  companyOrderId : Option String
  invoiceNo : Option String
  pickupCompleteAt : Option String
  arrivalAt : Option String
  status : Option String
deriving DecidableEq, Repr

/-! ## Shopby client (`shopby_delivery_client.py`) -/

/-- `deliveryGroups[0].get("deliveryNo")` copied into the `originalDeliveryNo`
key before the order is returned (`get_order_details`, lines 116-130). -/
def withOriginalDeliveryNo (o : ShopbyOrderDetail) : ShopbyOrderDetail :=
  { o with originalDeliveryNo :=
      match o.deliveryGroups with
      | [] => none
      | g :: _ => g.deliveryNo }

/-- `ShopbyDeliveryClient.get_order_details`.  NOTE — the committed source of
this function does not parse: lines 102-104 (`encoded_params` / `url` /
`headers`) are mis-indented, so `shopby_delivery_client.py` raises
`IndentationError` at import and the function as committed can never run.
This definition embeds the control flow those lines evidently intend (the
same statements at the `try` body's level): scan the date-windowed order
listing for an order whose `orderNo` equals the argument.  The value of
`listing` models the outcome of the HTTP listing request: `Except.error` is a
raised network error (every handler returns `None`), `Except.ok` the parsed
order list.  A missing match also yields `None`.  The claim about this
function is settled as a code bug against the unparseable source; this
definition shows the intended behaviour. -/
def get_order_details (listing : Except String (List ShopbyOrderDetail))
    (order_no : String) : Option ShopbyOrderDetail :=
  match listing with
  | .error _ => none
  | .ok orders =>
    match orders.find? (fun o => o.orderNo == order_no) with
    | some o => some (withOriginalDeliveryNo o)
    | none => none

/-- Arguments of one call to
`ShopbyDeliveryClient.change_order_status_by_shipping_no`. -/
structure MutationCall where
  shipping_no : Option String
  invoice_no : Option String
  delivery_company_type : String
  order_status_type : String
deriving DecidableEq, Repr

/-- Outcome of the HTTP PUT as the `try` block sees it: `true` on success,
`false` when the request raised (`aiohttp.ClientError` or any other
exception — both handlers return `False`, lines 189-211). -/
def httpSucceeds (http : MutationCall → Except String Unit) (c : MutationCall) : Bool :=
  match http c with
  | .ok _ => true
  | .error _ => false

/-- `ShopbyDeliveryClient.change_order_status_by_shipping_no`: the payload
construction `int(shipping_no)` at line 173 sits OUTSIDE the `try` that
begins at line 189, so an absent or non-numeric shipping number raises
`TypeError`/`ValueError` out of the function before any PUT is issued —
modelled as `Except.error`.  Only when the conversion succeeds is the PUT
issued, with every request failure caught and reported as `Except.ok false`. -/
def change_order_status_by_shipping_no (http : MutationCall → Except String Unit)
    (c : MutationCall) : Except String Bool :=
  if intParseOk c.shipping_no then Except.ok (httpSucceeds http c)
  else Except.error "invalid literal for int() with base 10"

/-! ## Reconciler (`invoice_tracker.py`) -/

/-- Nested status extraction
`deliveryGroups[0].orderProducts[0].orderProductOptions[0].get("orderStatusType", "알 수 없음")`
with the default kept at every missing level (lines 71-82 and 324-332). -/
def orderStatusOf (d : ShopbyOrderDetail) : String :=
  match d.deliveryGroups with
  | [] => "알 수 없음"
  | g :: _ =>
    match g.orderProducts with
    | [] => "알 수 없음"
    | p :: _ =>
      match p.orderProductOptions with
      | [] => "알 수 없음"
      | o :: _ => o.orderStatusType.getD "알 수 없음"

/-- `current_invoice`: `None` before the loop, overwritten with
`delivery_groups[0].get("invoiceNo", "")` when delivery groups exist
(lines 72-76). -/
def currentInvoiceOf (d : ShopbyOrderDetail) : Option String :=
  match d.deliveryGroups with
  | [] => none
  | g :: _ => some (g.invoiceNo.getD "")

/-- `"NAVER" in str(shopby_details.get("payType", "")).upper()` (line 338). -/
def is_naver_pay (payType : Option String) : Bool :=
  pyContains "NAVER".toList ((payType.getD "").toList.map Char.toUpper)

/-- The canonical order id the tracker looks up for a cornerlogis record:
`extract_shopby_order_no(order.get("companyOrderId", ""))`. -/
def updateKey (o : CornerOrder) : String :=
  extract_shopby_order_no (o.companyOrderId.getD "")

/-- The `update_info` dictionary appended to `update_candidates`
(the two embedded provenance copies `cornerlogis_order` / `shopby_order`
are kept as whole records). -/
structure UpdateInfo where
  shopby_order_no : String
  original_delivery_no : Option String
  invoice_no : Option String
  cornerlogis_order : CornerOrder
  shopby_order : ShopbyOrderDetail
  pickup_complete_at : Option String
  arrival_at : Option String
  status : Option String
deriving DecidableEq, Repr

/-- Build the `update_info` dictionary of `get_orders_needing_update`. -/
def mkUpdateInfo (order : CornerOrder) (d : ShopbyOrderDetail) : UpdateInfo :=
  { shopby_order_no := updateKey order
    original_delivery_no := d.originalDeliveryNo
    invoice_no := order.invoiceNo
    cornerlogis_order := order
    shopby_order := d
    pickup_complete_at := order.pickupCompleteAt
    arrival_at := order.arrivalAt
    status := order.status }

/-- Outcome of analysing one cornerlogis record inside
`get_orders_needing_update`: the candidates appended for it plus the
increments of the `skip_count` / `no_delivery_no_count` counters. -/
structure UpdateScan where
  candidates : List UpdateInfo
  skips : Nat
  noDeliveryNo : Nat
deriving DecidableEq, Repr

/-- One iteration of the `get_orders_needing_update` loop (lines 50-142),
embedded exactly as written — including the block at lines 117-127, which
sits at the level of the inner `if`/`elif`/`else` chain and therefore
appends an `update_info` unconditionally whenever
`original_delivery_no and is_updatable_status` holds. -/
def updateScan (lookup : String → Option ShopbyOrderDetail) (order : CornerOrder) :
    UpdateScan :=
  match lookup (updateKey order) with
  | none => ⟨[], 0, 0⟩
  | some d =>
    let odn := d.originalDeliveryNo
    let cur := currentInvoiceOf d
    let st := orderStatusOf d
    if pyTruthy odn = true ∧ (st = "PAY_DONE" ∨ st = "DELIVERY_PREPARE") then
      if pyTruthy cur = true ∧ cur = order.invoiceNo then
        -- "이미 업데이트 완료" skip, then the unconditional append of lines 117-127
        ⟨[mkUpdateInfo order d], 1, 0⟩
      else if pyTruthy cur = true ∧ cur ≠ order.invoiceNo then
        -- appended inside the elif (lines 102-112) and again at lines 117-127
        ⟨[mkUpdateInfo order d, mkUpdateInfo order d], 0, 0⟩
      else
        -- new invoice: only the lines 117-127 append
        ⟨[mkUpdateInfo order d], 0, 0⟩
    else if pyTruthy odn = true ∧ ¬(st = "PAY_DONE" ∨ st = "DELIVERY_PREPARE") then
      ⟨[], 1, 0⟩
    else
      ⟨[], 0, 1⟩

/-- `InvoiceTracker.get_orders_needing_update`: analyse every cornerlogis
record in order and return the accumulated `update_candidates`.  `lookup`
models `self.shopby_client.get_order_details`; `orders` the list returned by
`self.cornerlogis_client.get_orders_with_new_invoices()`. -/
def get_orders_needing_update (lookup : String → Option ShopbyOrderDetail)
    (orders : List CornerOrder) : List UpdateInfo :=
  orders.flatMap (fun o => (updateScan lookup o).candidates)

/-- The `completion_info` dictionary appended to `completion_candidates`. -/
structure CompletionInfo where
  shopby_order_no : String
  original_delivery_no : Option String
  invoice_no : Option String
  arrival_at : Option String
  cornerlogis_order : CornerOrder
  shopby_order : ShopbyOrderDetail
  status : Option String
deriving DecidableEq, Repr

/-- Build the `completion_info` dictionary of
`get_orders_needing_delivery_completion`. -/
def mkCompletionInfo (order : CornerOrder) (d : ShopbyOrderDetail) : CompletionInfo :=
  { shopby_order_no := updateKey order
    original_delivery_no := d.originalDeliveryNo
    invoice_no := order.invoiceNo
    arrival_at := order.arrivalAt
    cornerlogis_order := order
    shopby_order := d
    status := order.status }

/-- Outcome of analysing one arrived order inside
`get_orders_needing_delivery_completion`. -/
structure CompletionScan where
  candidates : List CompletionInfo
  skips : Nat
  noDeliveryNo : Nat
deriving DecidableEq, Repr

/-- One iteration of the `get_orders_needing_delivery_completion` loop
(lines 303-373): candidate exactly when `original_delivery_no` is truthy,
the status is `DELIVERY_ING` and the payment is not a Naver-pay type;
the remaining branches only bump counters. -/
def completionScan (lookup : String → Option ShopbyOrderDetail)
    (order : CornerOrder) : CompletionScan :=
  match lookup (updateKey order) with
  | none => ⟨[], 0, 0⟩
  | some d =>
    let odn := d.originalDeliveryNo
    let st := orderStatusOf d
    let naver := is_naver_pay d.payType
    if pyTruthy odn = true ∧ st = "DELIVERY_ING" ∧ naver = false then
      ⟨[mkCompletionInfo order d], 0, 0⟩
    else if pyTruthy odn = true ∧ st = "DELIVERY_DONE" then
      ⟨[], 1, 0⟩
    else if pyTruthy odn = true ∧ st = "DELIVERY_ING" ∧ naver = true then
      ⟨[], 1, 0⟩
    else if pyTruthy odn = true ∧ ¬(st = "DELIVERY_ING" ∨ st = "DELIVERY_DONE") then
      ⟨[], 1, 0⟩
    else
      ⟨[], 0, 1⟩

/-- The pre-filter of `get_orders_needing_delivery_completion`
(lines 291-295): keep orders whose `arrivalAt` is truthy and stays truthy
after stripping. -/
def arrivalTruthy (o : CornerOrder) : Bool :=
  match o.arrivalAt with
  | none => false
  | some s => !(s == "") && !(pyStrip s == "")

/-- `InvoiceTracker.get_orders_needing_delivery_completion`: filter to
arrived orders, then classify each one. -/
def get_orders_needing_delivery_completion
    (lookup : String → Option ShopbyOrderDetail)
    (orders : List CornerOrder) : List CompletionInfo :=
  (orders.filter (fun o => arrivalTruthy o)).flatMap
    (fun o => (completionScan lookup o).candidates)

/-! ## Batch executor (`invoice_tracker.py`, lines 197-273 and 385-470) -/

/-- The per-item `result` dictionary of `batch_update_orders`. -/
structure UpdateItemResult where
  order_no : String
  invoice_no : Option String
  original_delivery_no : Option String
  success : Bool
deriving DecidableEq, Repr

/-- The per-item `result` dictionary of `batch_complete_deliveries`. -/
structure CompletionItemResult where
  order_no : String
  original_delivery_no : Option String
  invoice_no : Option String
  arrival_at : Option String
  success : Bool
deriving DecidableEq, Repr

/-- The `summary` dictionary both batch routines build (timestamps are
wall-clock data and are left out). -/
structure SyncSummary (ρ : Type) where
  total_processed : Nat
  success_count : Nat
  failure_count : Nat
  dry_run : Bool
  results : List ρ
deriving DecidableEq, Repr

/-- Accumulated loop state of a batch routine: the two counters, the
`results` list, and the mutation calls issued so far. -/
structure BatchAcc (ρ : Type) where
  success_count : Nat
  failure_count : Nat
  results : List ρ
  calls : List MutationCall
deriving DecidableEq, Repr

/-- The sequential batch loop shared by both routines: process each item,
count it as success or failure, record its result, and keep every mutation
call it issued.  Items are processed strictly in input order.  The loops
have no per-item `try`, so a step that raises (an `Except.error`, e.g. the
uncaught `int(shipping_no)` conversion) propagates out of the loop: the whole
batch aborts and no summary is produced. -/
def runBatch (succ : ρ → Bool) (step : α → Except String (ρ × List MutationCall)) :
    List α → Except String (BatchAcc ρ)
  | [] => Except.ok ⟨0, 0, [], []⟩
  | u :: rest =>
    match step u with
    | .error e => .error e
    | .ok (r, cs) =>
      match runBatch succ step rest with
      | .error e => .error e
      | .ok acc =>
        .ok ⟨if succ r then acc.success_count + 1 else acc.success_count,
             if succ r then acc.failure_count else acc.failure_count + 1,
             r :: acc.results,
             cs ++ acc.calls⟩

/-- The mutation call `update_order_status` makes for one candidate:
`change_order_status_by_shipping_no` with the defaults
`delivery_company_type="POST"`, `order_status_type="DELIVERY_ING"`
(lines 155-188). -/
def updateCallOf (u : UpdateInfo) : MutationCall :=
  { shipping_no := u.original_delivery_no
    invoice_no := u.invoice_no
    delivery_company_type := "POST"
    order_status_type := "DELIVERY_ING" }

/-- One iteration of the `batch_update_orders` loop (lines 222-254):
in dry-run mode `success = True` with no call; otherwise the outcome of
`change_order_status_by_shipping_no` — which can raise out of the loop. -/
def updateStep (http : MutationCall → Except String Unit) (dry_run : Bool)
    (u : UpdateInfo) : Except String (UpdateItemResult × List MutationCall) :=
  if dry_run then
    .ok (⟨u.shopby_order_no, u.invoice_no, u.original_delivery_no, true⟩, [])
  else
    match change_order_status_by_shipping_no http (updateCallOf u) with
    | .error e => .error e
    | .ok success =>
      .ok (⟨u.shopby_order_no, u.invoice_no, u.original_delivery_no, success⟩,
        [updateCallOf u])

/-- `InvoiceTracker.batch_update_orders`: run the loop and build the summary;
an uncaught exception from an item aborts with no summary.  On success the
second component is the full list of mutation PUTs the run issued. -/
def batch_update_orders (http : MutationCall → Except String Unit)
    (update_list : List UpdateInfo) (dry_run : Bool) :
    Except String (SyncSummary UpdateItemResult × List MutationCall) :=
  match runBatch (fun r => r.success) (updateStep http dry_run) update_list with
  | .error e => .error e
  | .ok acc =>
    .ok (⟨update_list.length, acc.success_count, acc.failure_count, dry_run,
      acc.results⟩, acc.calls)

/-- The mutation call `batch_complete_deliveries` makes for one candidate:
`change_order_status_by_shipping_no` with `delivery_company_type="POST"` and
`order_status_type="DELIVERY_DONE"` (lines 427-432). -/
def completionCallOf (c : CompletionInfo) : MutationCall :=
  { shipping_no := c.original_delivery_no
    invoice_no := c.invoice_no
    delivery_company_type := "POST"
    order_status_type := "DELIVERY_DONE" }

/-- One iteration of the `batch_complete_deliveries` loop (lines 410-451). -/
def completionStep (http : MutationCall → Except String Unit) (dry_run : Bool)
    (c : CompletionInfo) : Except String (CompletionItemResult × List MutationCall) :=
  if dry_run then
    .ok (⟨c.shopby_order_no, c.original_delivery_no, c.invoice_no, c.arrival_at, true⟩,
      [])
  else
    match change_order_status_by_shipping_no http (completionCallOf c) with
    | .error e => .error e
    | .ok success =>
      .ok (⟨c.shopby_order_no, c.original_delivery_no, c.invoice_no, c.arrival_at,
        success⟩, [completionCallOf c])

/-- `InvoiceTracker.batch_complete_deliveries`. -/
def batch_complete_deliveries (http : MutationCall → Except String Unit)
    (completion_list : List CompletionInfo) (dry_run : Bool) :
    Except String (SyncSummary CompletionItemResult × List MutationCall) :=
  match runBatch (fun r => r.success) (completionStep http dry_run) completion_list with
  | .error e => .error e
  | .ok acc =>
    .ok (⟨completion_list.length, acc.success_count, acc.failure_count, dry_run,
      acc.results⟩, acc.calls)

/-! ## Orchestrator (`invoice_tracker.py`, `run_full_sync`, lines 472-561) -/

/-- The zero summary built inline when a pass has no candidates
(lines 497-504 and 516-523). -/
def emptySummary (ρ : Type) (dry_run : Bool) : SyncSummary ρ :=
  ⟨0, 0, 0, dry_run, []⟩

/-- The structured result `run_full_sync` returns: either the `"completed"`
dictionary or the `"error"` dictionary from the `except` handler. -/
inductive FullSyncResult where
  | completed (duration_seconds : Nat)
      (invoice_candidates_found : Nat) (invoice_result : SyncSummary UpdateItemResult)
      (completion_candidates_found : Nat)
      (completion_result : SyncSummary CompletionItemResult)
      (dry_run : Bool) : FullSyncResult
  | error (msg : String) : FullSyncResult
deriving DecidableEq, Repr

/-- The invoice-update pass of `run_full_sync` (lines 489-504): the inline
zero summary when there are no candidates, otherwise `batch_update_orders`
— whose uncaught exceptions propagate. -/
def updatePassResult (http : MutationCall → Except String Unit)
    (update_candidates : List UpdateInfo) (dry_run : Bool) :
    Except String (SyncSummary UpdateItemResult) :=
  if update_candidates.isEmpty then .ok (emptySummary UpdateItemResult dry_run)
  else
    match batch_update_orders http update_candidates dry_run with
    | .error e => .error e
    | .ok (summary, _) => .ok summary

/-- The delivery-completion pass of `run_full_sync` (lines 508-523). -/
def completionPassResult (http : MutationCall → Except String Unit)
    (completion_candidates : List CompletionInfo) (dry_run : Bool) :
    Except String (SyncSummary CompletionItemResult) :=
  if completion_candidates.isEmpty then .ok (emptySummary CompletionItemResult dry_run)
  else
    match batch_complete_deliveries http completion_candidates dry_run with
    | .error e => .error e
    | .ok (summary, _) => .ok summary

/-- `InvoiceTracker.run_full_sync`: invoice-update query, invoice-update
batch, completion query, completion batch, in that source order, all inside
one `try`.  `upd` and `comp` model the two candidate queries; both batch
phases can also raise (the uncaught `int(shipping_no)` conversion).  Any
exception falls through to the handler that returns the `status="error"`
dictionary, so no partial result survives.  `duration` is the measured
wall-clock duration. -/
def run_full_sync (http : MutationCall → Except String Unit)
    (upd : Except String (List UpdateInfo))
    (comp : Except String (List CompletionInfo))
    (duration : Nat) (dry_run : Bool) : FullSyncResult :=
  match upd with
  | .error e => .error e
  | .ok update_candidates =>
    match updatePassResult http update_candidates dry_run with
    | .error e => .error e
    | .ok update_result =>
      match comp with
      | .error e => .error e
      | .ok completion_candidates =>
        match completionPassResult http completion_candidates dry_run with
        | .error e => .error e
        | .ok completion_result =>
          .completed duration update_candidates.length update_result
            completion_candidates.length completion_result dry_run

/-! ## Pagination (`cornerlogis_production_client.py`, `get_orders_with_invoices`,
lines 74-127) -/

/-- Outcome of fetching one page: a well-formed `data.list` payload, a
response without the expected structure (loop breaks), or a raised
`aiohttp.ClientError` / other exception (loop breaks). -/
inductive PageResult (ρ : Type) where
  | rows (rs : List ρ) : PageResult ρ
  | badShape : PageResult ρ
  | fetchError (e : String) : PageResult ρ

/-- The `while True` pagination loop: fetch page `page`, extend the
accumulator, stop on a short page (`current_count < page_size`), on the
safety cap (`page > 100` after the increment), or on any non-row outcome.
Returns the accumulated rows together with the number of pages fetched. -/
def pageLoop (fetch : Nat → PageResult ρ) (page_size : Nat)
    (page : Nat) (acc : List ρ) : List ρ × Nat :=
  match fetch page with
  | .badShape => (acc, 1)
  | .fetchError _ => (acc, 1)
  | .rows rs =>
    let acc2 := acc ++ rs
    if rs.length < page_size then (acc2, 1)
    else if h : page + 1 > 100 then (acc2, 1)
    else
      let rec_result := pageLoop fetch page_size (page + 1) acc2
      (rec_result.1, rec_result.2 + 1)
termination_by 101 - page
decreasing_by omega

/-- `CornerlogisProductionClient.get_orders_with_invoices` for one status
bucket: start at page 1 with an empty accumulator.  The second component
instruments how many pages were fetched. -/
def get_orders_with_invoices (fetch : Nat → PageResult ρ) (page_size : Nat) :
    List ρ × Nat :=
  pageLoop fetch page_size 1 []

/-! ## Concrete fixtures -/

/-- An empty Shopby detail used as filler provenance. -/
def emptyDetail : ShopbyOrderDetail := ⟨"", none, [], none⟩

/-- An empty cornerlogis record used as filler provenance. -/
def emptyCorner : CornerOrder := ⟨none, none, none, none, none⟩

/-- A Shopby detail whose tracking number on file already equals the
cornerlogis invoice `6896724069501`, in updatable status `PAY_DONE`. -/
def dSynced : ShopbyOrderDetail :=
  { orderNo := "202508141241584834"
    payType := some "CREDIT_CARD"
    deliveryGroups :=
      [ { deliveryNo := some "250814001"
          invoiceNo := some "6896724069501"
          orderProducts :=
            [ { orderProductOptions := [ { orderStatusType := some "PAY_DONE" } ] } ] } ]
    originalDeliveryNo := some "250814001" }

/-- A commerce lookup that knows exactly the order of `dSynced`. -/
def lookupSynced : String → Option ShopbyOrderDetail := fun no =>
  if no = "202508141241584834" then some dSynced else none

/-- The cornerlogis shipment record for that order, carrying the same
tracking code the commerce side already has on file. -/
def orderSynced : CornerOrder :=
  { companyOrderId := some "202508141241584834 (N: 2025081427063970)"
    invoiceNo := some "6896724069501"
    pickupCompleteAt := some "2025-08-15 10:00:00"
    arrivalAt := none
    status := some "COMPLETED_SHIPMENTS" }

/-- First candidate of the failure-isolation batch. -/
def uA : UpdateInfo :=
  { shopby_order_no := "A", original_delivery_no := some "1001"
    invoice_no := some "11", cornerlogis_order := emptyCorner
    shopby_order := emptyDetail, pickup_complete_at := none
    arrival_at := none, status := none }

/-- Second candidate of the failure-isolation batch (its call will fail). -/
def uB : UpdateInfo :=
  { shopby_order_no := "B", original_delivery_no := some "1002"
    invoice_no := some "22", cornerlogis_order := emptyCorner
    shopby_order := emptyDetail, pickup_complete_at := none
    arrival_at := none, status := none }

/-- Third candidate of the failure-isolation batch. -/
def uC : UpdateInfo :=
  { shopby_order_no := "C", original_delivery_no := some "1003"
    invoice_no := some "33", cornerlogis_order := emptyCorner
    shopby_order := emptyDetail, pickup_complete_at := none
    arrival_at := none, status := none }

/-- A transport that rejects exactly the mutation aimed at shipping number
`1002` (the second candidate) and accepts everything else. -/
def httpFailB : MutationCall → Except String Unit := fun c =>
  if c.shipping_no = some "1002" then Except.error "HTTP 500" else Except.ok ()

/-- A transport that accepts every mutation. -/
def httpOk : MutationCall → Except String Unit := fun _ => Except.ok ()

/-- A candidate whose shipping number is truthy (so the classifier can emit
it) but is not an integer literal: `int("INVALID-NO")` raises `ValueError`
out of `change_order_status_by_shipping_no`. -/
def uBad : UpdateInfo :=
  { shopby_order_no := "BAD", original_delivery_no := some "INVALID-NO"
    invoice_no := some "99", cornerlogis_order := emptyCorner
    shopby_order := emptyDetail, pickup_complete_at := none
    arrival_at := none, status := none }

/-- A completion candidate with a truthy, non-numeric shipping number. -/
def cBad : CompletionInfo :=
  { shopby_order_no := "BADC", original_delivery_no := some "N/A"
    invoice_no := some "98", arrival_at := some "2025-08-16 12:00:00"
    cornerlogis_order := emptyCorner, shopby_order := emptyDetail
    status := none }

/-- A Shopby detail in delivery (`DELIVERY_ING`) paid through a Naver-pay
wallet, with a fulfillment reference on file. -/
def dNaver : ShopbyOrderDetail :=
  { orderNo := "202508141241584834"
    payType := some "NAVER_PAY"
    deliveryGroups :=
      [ { deliveryNo := some "250814001"
          invoiceNo := some "6896724069501"
          orderProducts :=
            [ { orderProductOptions := [ { orderStatusType := some "DELIVERY_ING" } ] } ] } ]
    originalDeliveryNo := some "250814001" }

/-- A commerce lookup that knows exactly the order of `dNaver`. -/
def lookupNaver : String → Option ShopbyOrderDetail := fun no =>
  if no = "202508141241584834" then some dNaver else none

/-- The cornerlogis record for that order, already arrived. -/
def orderArrived : CornerOrder :=
  { companyOrderId := some "202508141241584834 (N: 2025081427063970)"
    invoiceNo := some "6896724069501"
    pickupCompleteAt := some "2025-08-15 10:00:00"
    arrivalAt := some "2025-08-16 12:00:00"
    status := some "COMPLETED_SHIPMENTS" }

/-- A remote pagination API that always answers with an empty page. -/
def fetchEmpty : Nat → PageResult Nat := fun _ => PageResult.rows []

/-- A remote pagination API that answers every page with exactly three
rows — it never signals end-of-data. -/
def fetchFull : Nat → PageResult Nat := fun _ => PageResult.rows [0, 1, 2]

/-! ## Helper lemmas -/

theorem runBatch_ok_of_f (succ : ρ → Bool)
    (step : α → Except String (ρ × List MutationCall))
    (f : α → ρ × List MutationCall) (l : List α)
    (h : ∀ u ∈ l, step u = Except.ok (f u)) :
    ∃ acc, runBatch succ step l = Except.ok acc ∧
      acc.results = l.map (fun u => (f u).1) ∧
      acc.calls = l.flatMap (fun u => (f u).2) ∧
      acc.success_count + acc.failure_count = l.length ∧
      ((∀ u ∈ l, succ (f u).1 = true) →
        acc.success_count = l.length ∧ acc.failure_count = 0) := by
  induction l with
  | nil => exact ⟨⟨0, 0, [], []⟩, rfl, rfl, rfl, rfl, fun _ => ⟨rfl, rfl⟩⟩
  | cons u rest ih =>
    obtain ⟨acc, hrun, hres, hcalls, hsum, hall⟩ :=
      ih (fun v hv => h v (List.mem_cons_of_mem u hv))
    have hu := h u (List.mem_cons_self u rest)
    rcases hfu : f u with ⟨r, cs⟩
    rw [hfu] at hu
    refine ⟨⟨if succ r then acc.success_count + 1 else acc.success_count,
             if succ r then acc.failure_count else acc.failure_count + 1,
             r :: acc.results, cs ++ acc.calls⟩, ?_, ?_, ?_, ?_, ?_⟩
    · simp only [runBatch, hu, hrun]
    · simp [hres, hfu]
    · simp [hcalls, hfu]
    · by_cases hs : succ r = true <;> simp [hs] <;> omega
    · intro hallc
      have h1 := hallc u (List.mem_cons_self u rest)
      rw [hfu] at h1
      have h2 := hall (fun v hv => hallc v (List.mem_cons_of_mem u hv))
      simp [h1, h2.1, h2.2]

theorem batchOk_shape (succ : ρ → Bool)
    (step : α → Except String (ρ × List MutationCall)) (g : α → β) (gr : ρ → β)
    (hstep : ∀ u r cs, step u = Except.ok (r, cs) → gr r = g u) :
    ∀ (l : List α) (acc : BatchAcc ρ), runBatch succ step l = Except.ok acc →
      acc.results.map gr = l.map g ∧
      acc.success_count + acc.failure_count = l.length := by
  intro l
  induction l with
  | nil =>
    intro acc h
    simp only [runBatch, Except.ok.injEq] at h
    subst h
    exact ⟨rfl, rfl⟩
  | cons u rest ih =>
    intro acc h
    simp only [runBatch] at h
    cases hs : step u with
    | error e => rw [hs] at h; exact absurd h (by simp)
    | ok rc =>
      obtain ⟨r, cs⟩ := rc
      rw [hs] at h
      cases hr : runBatch succ step rest with
      | error e => rw [hr] at h; exact absurd h (by simp)
      | ok acc0 =>
        rw [hr] at h
        simp only [Except.ok.injEq] at h
        subst h
        obtain ⟨ih1, ih2⟩ := ih acc0 hr
        constructor
        · simp [ih1, hstep u r cs hs]
        · by_cases hsucc : succ r = true <;> simp [hsucc] <;> omega

theorem updateStep_ok_order_no (http : MutationCall → Except String Unit)
    (dry : Bool) (u : UpdateInfo) (r : UpdateItemResult) (cs : List MutationCall)
    (h : updateStep http dry u = Except.ok (r, cs)) :
    r.order_no = u.shopby_order_no := by
  cases dry with
  | true =>
    simp only [updateStep, if_true, Except.ok.injEq, Prod.mk.injEq] at h
    rw [← h.1]
  | false =>
    simp only [updateStep, Bool.false_eq_true, if_false] at h
    cases hcs : change_order_status_by_shipping_no http (updateCallOf u) with
    | error e => rw [hcs] at h; exact absurd h (by simp)
    | ok success =>
      rw [hcs] at h
      simp only [Except.ok.injEq, Prod.mk.injEq] at h
      rw [← h.1]

theorem completionStep_ok_order_no (http : MutationCall → Except String Unit)
    (dry : Bool) (c : CompletionInfo) (r : CompletionItemResult)
    (cs : List MutationCall)
    (h : completionStep http dry c = Except.ok (r, cs)) :
    r.order_no = c.shopby_order_no := by
  cases dry with
  | true =>
    simp only [completionStep, if_true, Except.ok.injEq, Prod.mk.injEq] at h
    rw [← h.1]
  | false =>
    simp only [completionStep, Bool.false_eq_true, if_false] at h
    cases hcs : change_order_status_by_shipping_no http (completionCallOf c) with
    | error e => rw [hcs] at h; exact absurd h (by simp)
    | ok success =>
      rw [hcs] at h
      simp only [Except.ok.injEq, Prod.mk.injEq] at h
      rw [← h.1]

theorem batch_update_orders_ok_inv (http : MutationCall → Except String Unit)
    (dry : Bool) (ul : List UpdateInfo) (us : SyncSummary UpdateItemResult)
    (ucalls : List MutationCall)
    (h : batch_update_orders http ul dry = Except.ok (us, ucalls)) :
    us.total_processed = ul.length ∧
    us.results.map (fun r => r.order_no) = ul.map (fun u => u.shopby_order_no) ∧
    us.results.length = ul.length ∧
    us.success_count + us.failure_count = us.total_processed ∧
    us.dry_run = dry := by
  have hstep : ∀ u r cs, updateStep http dry u = Except.ok (r, cs) →
      r.order_no = u.shopby_order_no := fun u r cs hs =>
    updateStep_ok_order_no http dry u r cs hs
  unfold batch_update_orders at h
  cases hr : runBatch (fun r => r.success) (updateStep http dry) ul with
  | error e => rw [hr] at h; exact absurd h (by simp)
  | ok acc =>
    rw [hr] at h
    simp only [Except.ok.injEq, Prod.mk.injEq] at h
    obtain ⟨hmap, hsum⟩ := batchOk_shape (fun r => r.success) (updateStep http dry)
      (fun u => u.shopby_order_no) (fun r => r.order_no) hstep ul acc hr
    rw [← h.1]
    refine ⟨rfl, hmap, ?_, ?_, rfl⟩
    · simpa using congrArg List.length hmap
    · simpa using hsum

theorem batch_complete_deliveries_ok_inv (http : MutationCall → Except String Unit)
    (dry : Bool) (cl : List CompletionInfo) (cs : SyncSummary CompletionItemResult)
    (ccalls : List MutationCall)
    (h : batch_complete_deliveries http cl dry = Except.ok (cs, ccalls)) :
    cs.total_processed = cl.length ∧
    cs.results.map (fun r => r.order_no) = cl.map (fun c => c.shopby_order_no) ∧
    cs.results.length = cl.length ∧
    cs.success_count + cs.failure_count = cs.total_processed ∧
    cs.dry_run = dry := by
  have hstep : ∀ c r cs2, completionStep http dry c = Except.ok (r, cs2) →
      r.order_no = c.shopby_order_no := fun c r cs2 hs =>
    completionStep_ok_order_no http dry c r cs2 hs
  unfold batch_complete_deliveries at h
  cases hr : runBatch (fun r => r.success) (completionStep http dry) cl with
  | error e => rw [hr] at h; exact absurd h (by simp)
  | ok acc =>
    rw [hr] at h
    simp only [Except.ok.injEq, Prod.mk.injEq] at h
    obtain ⟨hmap, hsum⟩ := batchOk_shape (fun r => r.success) (completionStep http dry)
      (fun c => c.shopby_order_no) (fun r => r.order_no) hstep cl acc hr
    rw [← h.1]
    refine ⟨rfl, hmap, ?_, ?_, rfl⟩
    · simpa using congrArg List.length hmap
    · simpa using hsum

theorem prefixBefore_none (pat : List Char) (s : List Char)
    (h : prefixBefore pat s = none) (j : Nat) :
    pat.isPrefixOf (s.drop j) = false := by
  induction s generalizing j with
  | nil =>
    simp only [prefixBefore] at h
    split at h
    · exact absurd h (by simp)
    · next hemp =>
      cases pat with
      | nil => simp [List.isEmpty] at hemp
      | cons a as => simp [List.drop_nil, List.isPrefixOf]
  | cons c rest ih =>
    simp only [prefixBefore] at h
    split at h
    · exact absurd h (by simp)
    · next hp =>
      rw [Option.map_eq_none'] at h
      cases j with
      | zero => simpa using Bool.eq_false_iff.mpr hp
      | succ j => simpa [List.drop_succ_cons] using ih h j

theorem prefixBefore_some (pat : List Char) (s p : List Char)
    (h : prefixBefore pat s = some p) :
    p = s.take p.length ∧ pat.isPrefixOf (s.drop p.length) = true ∧
      ∀ j < p.length, pat.isPrefixOf (s.drop j) = false := by
  induction s generalizing p with
  | nil =>
    simp only [prefixBefore] at h
    split at h
    · next hemp =>
      cases pat with
      | cons a as => simp [List.isEmpty] at hemp
      | nil =>
        have hp : p = [] := by simpa using h.symm
        subst hp
        exact ⟨rfl, rfl, fun j hj => absurd hj (by simp)⟩
    · exact absurd h (by simp)
  | cons c rest ih =>
    simp only [prefixBefore] at h
    split at h
    · next hp =>
      have hpe : p = [] := by simpa using h.symm
      subst hpe
      exact ⟨rfl, by simpa using hp, fun j hj => absurd hj (by simp)⟩
    · next hp =>
      rw [Option.map_eq_some'] at h
      obtain ⟨q, hq, hpq⟩ := h
      obtain ⟨hq1, hq2, hq3⟩ := ih q hq
      subst hpq
      refine ⟨?_, ?_, ?_⟩
      · simpa [List.take_succ_cons] using hq1
      · simpa [List.drop_succ_cons] using hq2
      · intro j hj
        cases j with
        | zero => simpa using Bool.eq_false_iff.mpr hp
        | succ j =>
          simpa [List.drop_succ_cons] using hq3 j (by simpa using hj)

theorem prefixBefore_eq_none_of_no_occ (pat s : List Char) (hpat : pat ≠ [])
    (hb : ∀ j < s.length, pat.isPrefixOf (s.drop j) = false) :
    prefixBefore pat s = none := by
  cases hcase : prefixBefore pat s with
  | none => rfl
  | some p =>
    obtain ⟨_, h2, _⟩ := prefixBefore_some pat s p hcase
    have hlt : p.length < s.length := by
      by_contra hge
      push_neg at hge
      rw [List.drop_eq_nil_of_le hge] at h2
      cases pat with
      | nil => exact hpat rfl
      | cons a as => simp [List.isPrefixOf] at h2
    rw [hb p.length hlt] at h2
    exact Bool.noConfusion h2

theorem pageLoop_short (fetch : Nat → PageResult ρ) (ps page : Nat) (acc : List ρ)
    (rs : List ρ) (hf : fetch page = PageResult.rows rs) (hlt : rs.length < ps) :
    pageLoop fetch ps page acc = (acc ++ rs, 1) := by
  rw [pageLoop, hf]
  simp [hlt]

theorem pageLoop_full (fetch : Nat → PageResult ρ) (ps : Nat)
    (hfull : ∀ p, ∃ rs, fetch p = PageResult.rows rs ∧ rs.length = ps) :
    ∀ n page acc, page + n = 101 → 1 ≤ n → (pageLoop fetch ps page acc).2 = n := by
  intro n
  induction n with
  | zero => intro page acc _ h1; exact absurd h1 (by omega)
  | succ k ih =>
    intro page acc hsum _
    obtain ⟨rs, hf, hlen⟩ := hfull page
    rw [pageLoop, hf]
    have hnotlt : ¬ rs.length < ps := by omega
    by_cases hcap : page + 1 > 100
    · have hk : k = 0 := by omega
      simp [hnotlt, hcap, hk]
    · have hk1 : 1 ≤ k := by omega
      have hrec := ih (page + 1) (acc ++ rs) (by omega) hk1
      simp [hnotlt, hcap, hrec]

theorem pageLoop_le (fetch : Nat → PageResult ρ) (ps : Nat) :
    ∀ n page acc, page + n = 101 → 1 ≤ n → (pageLoop fetch ps page acc).2 ≤ n := by
  intro n
  induction n with
  | zero => intro page acc _ h1; exact absurd h1 (by omega)
  | succ k ih =>
    intro page acc hsum _
    cases hf : fetch page with
    | badShape => rw [pageLoop, hf]; exact Nat.succ_le_succ (Nat.zero_le k)
    | fetchError e => rw [pageLoop, hf]; exact Nat.succ_le_succ (Nat.zero_le k)
    | rows rs =>
      rw [pageLoop, hf]
      by_cases hlt : rs.length < ps
      · simp [hlt]
      · by_cases hcap : page + 1 > 100
        · simp [hlt, hcap]
        · have hk1 : 1 ≤ k := by omega
          have hrec := ih (page + 1) (acc ++ rs) (by omega) hk1
          simp only [hlt, if_false, hcap, dif_neg, not_false_iff]
          simpa using hrec

/-! ## Claims -/

/-- C8: `extract_shopby_order_no` is pure and deterministic; on the composite
id `"202508141241584834 (N: 2025081427063970)"` it returns
`"202508141241584834"`; for every string containing the delimiter `" (N:"`
it returns the prefix before the delimiter's first occurrence; and for every
string not containing the delimiter it returns its argument unchanged. -/
theorem c8_extract_canonical_id :
    extract_shopby_order_no "202508141241584834 (N: 2025081427063970)"
        = "202508141241584834" ∧
    (∀ s : String,
      (∀ j < s.toList.length, " (N:".toList.isPrefixOf (s.toList.drop j) = false) →
      extract_shopby_order_no s = s) ∧
    (∀ (s : String) (j : Nat), " (N:".toList.isPrefixOf (s.toList.drop j) = true →
      ∃ p : List Char, extract_shopby_order_no s = ⟨p⟩ ∧
        p = s.toList.take p.length ∧
        " (N:".toList.isPrefixOf (s.toList.drop p.length) = true ∧
        ∀ i < p.length, " (N:".toList.isPrefixOf (s.toList.drop i) = false) := by
  refine ⟨by decide, ?_, ?_⟩
  · intro s hb
    have hnone : prefixBefore " (N:".toList s.toList = none :=
      prefixBefore_eq_none_of_no_occ _ _ (by decide) hb
    unfold extract_shopby_order_no
    rw [hnone]
  · intro s j hj
    cases hcase : prefixBefore " (N:".toList s.toList with
    | none =>
      rw [prefixBefore_none _ _ hcase j] at hj
      exact Bool.noConfusion hj
    | some p =>
      obtain ⟨h1, h2, h3⟩ := prefixBefore_some _ _ _ hcase
      refine ⟨p, ?_, h1, h2, h3⟩
      unfold extract_shopby_order_no
      rw [hcase]

/-- Witness for C8: a delimiter-free id is returned unchanged, and an id
with the delimiter is cut at its first occurrence. -/
theorem c8_extract_canonical_id_witness :
    extract_shopby_order_no "TRADEIN" = "TRADEIN" ∧
    (∃ p : List Char, extract_shopby_order_no "X1 (N: 77)" = ⟨p⟩ ∧
      p = "X1 (N: 77)".toList.take p.length ∧
      " (N:".toList.isPrefixOf ("X1 (N: 77)".toList.drop p.length) = true ∧
      ∀ i < p.length, " (N:".toList.isPrefixOf ("X1 (N: 77)".toList.drop i) = false) :=
  ⟨c8_extract_canonical_id.2.1 "TRADEIN" (by decide),
   c8_extract_canonical_id.2.2 "X1 (N: 77)" 2 (by decide)⟩

/-- C9: the pagination loop of `get_orders_with_invoices` terminates: a page
with fewer rows than `page_size` stops it at that page; an API answering
every page with exactly `page_size` rows is stopped by the 100-page safety
cap; and no run ever fetches more than 100 pages. -/
theorem c9_pagination_terminates :
    (∀ (ρ : Type) (fetch : Nat → PageResult ρ) (ps page : Nat) (acc rs : List ρ),
      fetch page = PageResult.rows rs → rs.length < ps →
      pageLoop fetch ps page acc = (acc ++ rs, 1)) ∧
    (∀ (ρ : Type) (fetch : Nat → PageResult ρ) (ps : Nat),
      (∀ p, ∃ rs, fetch p = PageResult.rows rs ∧ rs.length = ps) →
      (get_orders_with_invoices fetch ps).2 = 100) ∧
    (∀ (ρ : Type) (fetch : Nat → PageResult ρ) (ps : Nat),
      (get_orders_with_invoices fetch ps).2 ≤ 100) := by
  refine ⟨?_, ?_, ?_⟩
  · intro ρ fetch ps page acc rs hf hlt
    exact pageLoop_short fetch ps page acc rs hf hlt
  · intro ρ fetch ps hfull
    exact pageLoop_full fetch ps hfull 100 1 [] rfl (by omega)
  · intro ρ fetch ps
    exact pageLoop_le fetch ps 100 1 [] rfl (by omega)

/-- Witness for C9: one empty page ends pagination at once, and the
always-full fixture API is cut off after exactly 100 pages. -/
theorem c9_pagination_terminates_witness :
    pageLoop fetchEmpty 5 1 [] = ([], 1) ∧
    (get_orders_with_invoices fetchFull 3).2 = 100 :=
  ⟨by simpa using c9_pagination_terminates.1 Nat fetchEmpty 5 1 [] [] rfl (by decide),
   c9_pagination_terminates.2.1 Nat fetchFull 3 (fun _ => ⟨[0, 1, 2], rfl, rfl⟩)⟩

theorem flatMap_singleton_eq_map (f : α → β) (l : List α) :
    (l.flatMap (fun u => [f u])) = l.map f := by
  induction l with
  | nil => rfl
  | cons a t ih => simp [ih]

theorem updateStep_dry (http : MutationCall → Except String Unit) (u : UpdateInfo) :
    updateStep http true u = Except.ok
      (⟨u.shopby_order_no, u.invoice_no, u.original_delivery_no, true⟩, []) := by
  simp [updateStep]

theorem completionStep_dry (http : MutationCall → Except String Unit)
    (c : CompletionInfo) :
    completionStep http true c = Except.ok
      (⟨c.shopby_order_no, c.original_delivery_no, c.invoice_no, c.arrival_at, true⟩,
        []) := by
  simp [completionStep]

theorem updateStep_parse_ok (http : MutationCall → Except String Unit)
    (u : UpdateInfo) (hp : intParseOk u.original_delivery_no = true) :
    updateStep http false u = Except.ok
      (⟨u.shopby_order_no, u.invoice_no, u.original_delivery_no,
        httpSucceeds http (updateCallOf u)⟩, [updateCallOf u]) := by
  simp [updateStep, change_order_status_by_shipping_no, updateCallOf, hp]

theorem completionStep_parse_ok (http : MutationCall → Except String Unit)
    (c : CompletionInfo) (hp : intParseOk c.original_delivery_no = true) :
    completionStep http false c = Except.ok
      (⟨c.shopby_order_no, c.original_delivery_no, c.invoice_no, c.arrival_at,
        httpSucceeds http (completionCallOf c)⟩, [completionCallOf c]) := by
  simp [completionStep, change_order_status_by_shipping_no, completionCallOf, hp]

/-- C2: with `dry_run = true` neither batch routine issues any mutation PUT
(`change_order_status_by_shipping_no` is never invoked, so nothing can
raise either): each returns a summary whose `success_count` equals the
number of candidates, whose `failure_count` is zero, and in which every
candidate is recorded as a simulated success, together with an empty list
of issued calls. -/
theorem c2_dry_run_is_pure (http : MutationCall → Except String Unit)
    (ul : List UpdateInfo) (cl : List CompletionInfo) :
    (∃ us, batch_update_orders http ul true = Except.ok (us, []) ∧
      us.success_count = ul.length ∧ us.failure_count = 0 ∧
      us.results.length = ul.length ∧
      ∀ r ∈ us.results, r.success = true) ∧
    (∃ csum, batch_complete_deliveries http cl true = Except.ok (csum, []) ∧
      csum.success_count = cl.length ∧ csum.failure_count = 0 ∧
      csum.results.length = cl.length ∧
      ∀ r ∈ csum.results, r.success = true) := by
  constructor
  · obtain ⟨acc, hrun, hres, hcalls, -, hall⟩ :=
      runBatch_ok_of_f (fun r => r.success) (updateStep http true)
        (fun u => (⟨u.shopby_order_no, u.invoice_no, u.original_delivery_no, true⟩, []))
        ul (fun u _ => updateStep_dry http u)
    obtain ⟨hs, hf⟩ := hall (fun u _ => rfl)
    refine ⟨⟨ul.length, acc.success_count, acc.failure_count, true, acc.results⟩,
      ?_, hs, hf, ?_, ?_⟩
    · have hc : acc.calls = [] := by simp [hcalls]
      simp only [batch_update_orders, hrun, hc]
    · simp [hres]
    · intro r hr
      rw [hres] at hr
      obtain ⟨u, -, rfl⟩ := List.mem_map.mp hr
      rfl
  · obtain ⟨acc, hrun, hres, hcalls, -, hall⟩ :=
      runBatch_ok_of_f (fun r => r.success) (completionStep http true)
        (fun c => (⟨c.shopby_order_no, c.original_delivery_no, c.invoice_no,
          c.arrival_at, true⟩, []))
        cl (fun c _ => completionStep_dry http c)
    obtain ⟨hs, hf⟩ := hall (fun c _ => rfl)
    refine ⟨⟨cl.length, acc.success_count, acc.failure_count, true, acc.results⟩,
      ?_, hs, hf, ?_, ?_⟩
    · have hc : acc.calls = [] := by simp [hcalls]
      simp only [batch_complete_deliveries, hrun, hc]
    · simp [hres]
    · intro r hr
      rw [hres] at hr
      obtain ⟨c, -, rfl⟩ := List.mem_map.mp hr
      rfl

/-- C10 counterexample: with `dry_run = false` a candidate whose truthy
shipping number is not an integer literal makes the batch raise out of the
loop: no summary at all is returned, so the claim's "the summary returned
... for every input list and every value of the dry_run flag" fails at this
input. -/
theorem c10_bad_shipping_no_returns_no_summary :
    pyTruthy cBad.original_delivery_no = true ∧
    batch_complete_deliveries httpOk [cBad] false
      = Except.error "invalid literal for int() with base 10" := ⟨rfl, rfl⟩

/-- C10 (amended): whenever a batch routine does return a summary — always
in dry-run mode, and otherwise whenever no candidate makes the uncaught
`int(shipping_no)` conversion raise — that summary satisfies the accounting
invariant: `total_processed` is the input length, `results` has exactly one
entry per candidate in input order, `success_count + failure_count =
total_processed`, and the summary's `dry_run` flag echoes the argument. -/
theorem c10_accounting (http : MutationCall → Except String Unit) (dry : Bool)
    (ul : List UpdateInfo) (cl : List CompletionInfo) :
    (∀ us ucalls, batch_update_orders http ul dry = Except.ok (us, ucalls) →
      us.total_processed = ul.length ∧
      us.results.length = ul.length ∧
      us.results.map (fun r => r.order_no) = ul.map (fun u => u.shopby_order_no) ∧
      us.success_count + us.failure_count = us.total_processed ∧
      us.dry_run = dry) ∧
    (∀ csum ccalls, batch_complete_deliveries http cl dry = Except.ok (csum, ccalls) →
      csum.total_processed = cl.length ∧
      csum.results.length = cl.length ∧
      csum.results.map (fun r => r.order_no) = cl.map (fun c => c.shopby_order_no) ∧
      csum.success_count + csum.failure_count = csum.total_processed ∧
      csum.dry_run = dry) ∧
    (∃ us ucalls, batch_update_orders http ul true = Except.ok (us, ucalls)) ∧
    (∃ csum ccalls, batch_complete_deliveries http cl true = Except.ok (csum, ccalls)) := by
  refine ⟨?_, ?_, ?_, ?_⟩
  · intro us ucalls h
    obtain ⟨h1, h2, h3, h4, h5⟩ := batch_update_orders_ok_inv http dry ul us ucalls h
    exact ⟨h1, h3, h2, h4, h5⟩
  · intro csum ccalls h
    obtain ⟨h1, h2, h3, h4, h5⟩ :=
      batch_complete_deliveries_ok_inv http dry cl csum ccalls h
    exact ⟨h1, h3, h2, h4, h5⟩
  · obtain ⟨acc, hrun, -, -, -, -⟩ :=
      runBatch_ok_of_f (fun r => r.success) (updateStep http true)
        (fun u => (⟨u.shopby_order_no, u.invoice_no, u.original_delivery_no, true⟩, []))
        ul (fun u _ => updateStep_dry http u)
    exact ⟨⟨ul.length, acc.success_count, acc.failure_count, true, acc.results⟩,
      acc.calls, by simp only [batch_update_orders, hrun]⟩
  · obtain ⟨acc, hrun, -, -, -, -⟩ :=
      runBatch_ok_of_f (fun r => r.success) (completionStep http true)
        (fun c => (⟨c.shopby_order_no, c.original_delivery_no, c.invoice_no,
          c.arrival_at, true⟩, []))
        cl (fun c _ => completionStep_dry http c)
    exact ⟨⟨cl.length, acc.success_count, acc.failure_count, true, acc.results⟩,
      acc.calls, by simp only [batch_complete_deliveries, hrun]⟩

/-- C3 counterexample: the second of three candidates has a truthy but
non-numeric shipping number, so its "mutation call" raises the uncaught
`int()` conversion error and the whole batch aborts: processing does NOT
continue and no per-item results are reported, refuting the claim at this
concrete input. -/
theorem c3_uncaught_int_aborts_batch :
    pyTruthy uBad.original_delivery_no = true ∧
    batch_update_orders httpOk [uA, uBad, uC] false
      = Except.error "invalid literal for int() with base 10" := ⟨rfl, rfl⟩

/-- C3 (amended): with `dry_run = false`, for candidates whose shipping
numbers are integer literals — so the payload construction cannot raise and
a "failure of the mutation call" means the PUT itself failed, which
`change_order_status_by_shipping_no` catches and reports as `False` — each
item's outcome is recorded as that item's result and processing continues:
every candidate's PUT is issued and every candidate has a result, in input
order; on the 3-candidate fixture whose second PUT fails, the summary
reports 2 successes, 1 failure and all 3 item results. -/
theorem c3_failure_isolation (http : MutationCall → Except String Unit)
    (ul : List UpdateInfo) (cl : List CompletionInfo)
    (hu : ∀ u ∈ ul, intParseOk u.original_delivery_no = true)
    (hc : ∀ c ∈ cl, intParseOk c.original_delivery_no = true) :
    (∃ us ucalls, batch_update_orders http ul false = Except.ok (us, ucalls) ∧
      us.results.map (fun r => r.order_no) = ul.map (fun u => u.shopby_order_no) ∧
      us.results.map (fun r => r.success)
        = ul.map (fun u => httpSucceeds http (updateCallOf u)) ∧
      ucalls = ul.map updateCallOf) ∧
    (∃ csum ccalls, batch_complete_deliveries http cl false = Except.ok (csum, ccalls) ∧
      csum.results.map (fun r => r.order_no) = cl.map (fun c => c.shopby_order_no) ∧
      csum.results.map (fun r => r.success)
        = cl.map (fun c => httpSucceeds http (completionCallOf c)) ∧
      ccalls = cl.map completionCallOf) ∧
    batch_update_orders httpFailB [uA, uB, uC] false
      = Except.ok
        (⟨3, 2, 1, false,
          [⟨"A", some "11", some "1001", true⟩,
           ⟨"B", some "22", some "1002", false⟩,
           ⟨"C", some "33", some "1003", true⟩]⟩,
         [updateCallOf uA, updateCallOf uB, updateCallOf uC]) := by
  refine ⟨?_, ?_, rfl⟩
  · obtain ⟨acc, hrun, hres, hcalls, -, -⟩ :=
      runBatch_ok_of_f (fun r => r.success) (updateStep http false)
        (fun u => (⟨u.shopby_order_no, u.invoice_no, u.original_delivery_no,
          httpSucceeds http (updateCallOf u)⟩, [updateCallOf u]))
        ul (fun u hmem => updateStep_parse_ok http u (hu u hmem))
    refine ⟨⟨ul.length, acc.success_count, acc.failure_count, false, acc.results⟩,
      acc.calls, by simp only [batch_update_orders, hrun], ?_, ?_, ?_⟩
    · simp [hres, List.map_map]
    · simp [hres, List.map_map]
    · rw [hcalls]
      exact flatMap_singleton_eq_map updateCallOf ul
  · obtain ⟨acc, hrun, hres, hcalls, -, -⟩ :=
      runBatch_ok_of_f (fun r => r.success) (completionStep http false)
        (fun c => (⟨c.shopby_order_no, c.original_delivery_no, c.invoice_no,
          c.arrival_at, httpSucceeds http (completionCallOf c)⟩, [completionCallOf c]))
        cl (fun c hmem => completionStep_parse_ok http c (hc c hmem))
    refine ⟨⟨cl.length, acc.success_count, acc.failure_count, false, acc.results⟩,
      acc.calls, by simp only [batch_complete_deliveries, hrun], ?_, ?_, ?_⟩
    · simp [hres, List.map_map]
    · simp [hres, List.map_map]
    · rw [hcalls]
      exact flatMap_singleton_eq_map completionCallOf cl

/-- C1 (code-bug evidence): for `orderSynced`, whose commerce detail
`dSynced` carries the fulfillment reference, the updatable status
`PAY_DONE`, and a tracking number on file equal to the cornerlogis tracking
code, the loop body counts the order as an already-synced skip and STILL
emits an update candidate: the block at `invoice_tracker.py` lines 117-127
sits at the level of the inner `if`/`elif`/`else` chain and appends
unconditionally.  Consequently a rerun after a successful apply (tracking
numbers equal — exactly this state) again yields a candidate instead of
zero. -/
theorem c1_already_synced_still_emits :
    lookupSynced (updateKey orderSynced) = some dSynced ∧
    currentInvoiceOf dSynced = orderSynced.invoiceNo ∧
    orderStatusOf dSynced = "PAY_DONE" ∧
    pyTruthy dSynced.originalDeliveryNo = true ∧
    (updateScan lookupSynced orderSynced).skips = 1 ∧
    (updateScan lookupSynced orderSynced).candidates
        = [mkUpdateInfo orderSynced dSynced] ∧
    get_orders_needing_update lookupSynced [orderSynced]
        = [mkUpdateInfo orderSynced dSynced] := by decide

/-- C5: when the commerce detail is present with its fulfillment reference
but the order status is outside the updatable set
{`PAY_DONE`, `DELIVERY_PREPARE`}, the update pass emits no candidate for
the record (it is an `already_advanced` skip), so the batch executor issues
no tracking-number mutation for that order within the run. -/
theorem c5_advanced_status_never_updated
    (lookup : String → Option ShopbyOrderDetail)
    (http : MutationCall → Except String Unit) (order : CornerOrder)
    (d : ShopbyOrderDetail) (hl : lookup (updateKey order) = some d)
    (hodn : pyTruthy d.originalDeliveryNo = true)
    (hst : ¬(orderStatusOf d = "PAY_DONE" ∨ orderStatusOf d = "DELIVERY_PREPARE")) :
    (updateScan lookup order).candidates = [] ∧
    (updateScan lookup order).skips = 1 ∧
    get_orders_needing_update lookup [order] = [] ∧
    batch_update_orders http (get_orders_needing_update lookup [order]) false
        = Except.ok (⟨0, 0, 0, false, []⟩, []) := by
  have hscan : updateScan lookup order = ⟨[], 1, 0⟩ := by
    simp [updateScan, hl, hodn, hst]
  have hrun : get_orders_needing_update lookup [order] = [] := by
    simp [get_orders_needing_update, hscan]
  refine ⟨by rw [hscan], by rw [hscan], hrun, ?_⟩
  rw [hrun]
  rfl

/-- Witness for C5: a record in `DELIVERY_ING` (already shipping) is
skipped — no candidate and no mutation call. -/
theorem c5_advanced_status_never_updated_witness :
    (updateScan lookupNaver orderArrived).candidates = [] ∧
    (updateScan lookupNaver orderArrived).skips = 1 ∧
    get_orders_needing_update lookupNaver [orderArrived] = [] ∧
    batch_update_orders httpFailB
        (get_orders_needing_update lookupNaver [orderArrived]) false
      = Except.ok (⟨0, 0, 0, false, []⟩, []) :=
  c5_advanced_status_never_updated lookupNaver httpFailB orderArrived dNaver
    (by decide) (by decide) (by decide)

/-- C6 (code-bug evidence): the claim describes the INTENDED
`get_order_details` — the committed source cannot exhibit any behaviour,
since `shopby_delivery_client.py` lines 102-104 are mis-indented and the
module fails to parse (`IndentationError`), so every import or call raises.
Over the embedding of the intended control flow, the claimed behaviour
holds: `get_order_details` returns the detail or `none` — a raised network
error or a listing without a matching order yields `none`, never an
exception (the function is total over every modelled listing outcome); and
a record whose commerce lookup is absent, or whose detail lacks a truthy
`originalDeliveryNo`, contributes no update candidate. -/
theorem c6_lookup_absent_is_skip :
    (∀ (e no : String), get_order_details (Except.error e) no = none) ∧
    (∀ (orders : List ShopbyOrderDetail) (no : String),
      (∀ o ∈ orders, o.orderNo ≠ no) →
      get_order_details (Except.ok orders) no = none) ∧
    (∀ (listing : Except String (List ShopbyOrderDetail)) (no : String),
      (get_order_details listing no).isSome = true →
      ∃ orders o, listing = Except.ok orders ∧ o ∈ orders ∧ o.orderNo = no) ∧
    (∀ (lookup : String → Option ShopbyOrderDetail) (order : CornerOrder),
      lookup (updateKey order) = none →
      (updateScan lookup order).candidates = []) ∧
    (∀ (lookup : String → Option ShopbyOrderDetail) (order : CornerOrder)
        (d : ShopbyOrderDetail), lookup (updateKey order) = some d →
      pyTruthy d.originalDeliveryNo = false →
      (updateScan lookup order).candidates = [] ∧
      get_orders_needing_update lookup [order] = []) := by
  refine ⟨fun e no => rfl, ?_, ?_, ?_, ?_⟩
  · intro orders no h
    have hfind : orders.find? (fun o => o.orderNo == no) = none := by
      rw [List.find?_eq_none]
      intro o ho
      simpa using h o ho
    simp [get_order_details, hfind]
  · intro listing no hs
    cases listing with
    | error e => simp [get_order_details] at hs
    | ok orders =>
      cases hfind : orders.find? (fun o => o.orderNo == no) with
      | none => simp [get_order_details, hfind] at hs
      | some o =>
        exact ⟨orders, o, rfl, List.mem_of_find?_eq_some hfind,
          by simpa using List.find?_some hfind⟩
  · intro lookup order h
    simp [updateScan, h]
  · intro lookup order d hl hf
    have hscan : (updateScan lookup order).candidates = [] := by
      simp [updateScan, hl, hf]
    exact ⟨hscan, by simp [get_orders_needing_update, hscan]⟩

/-- Witness for C6: a network error and a no-match listing both yield
`none`, and an absent lookup or an absent fulfillment reference yields no
candidate. -/
theorem c6_lookup_absent_is_skip_witness :
    get_order_details (Except.error "connection reset") "202508141241584834" = none ∧
    get_order_details (Except.ok [dSynced]) "999" = none ∧
    (updateScan (fun _ => none) orderSynced).candidates = [] ∧
    (updateScan (fun no => if no = "202508141241584834" then some emptyDetail else none)
        orderSynced).candidates = [] :=
  ⟨c6_lookup_absent_is_skip.1 "connection reset" "202508141241584834",
   c6_lookup_absent_is_skip.2.1 [dSynced] "999" (by decide),
   c6_lookup_absent_is_skip.2.2.2.1 (fun _ => none) orderSynced rfl,
   (c6_lookup_absent_is_skip.2.2.2.2
      (fun no => if no = "202508141241584834" then some emptyDetail else none)
      orderSynced emptyDetail (by decide) (by decide)).1⟩

/-- C4: a fulfillment record with a truthy `arrivalAt` whose commerce detail
has the fulfillment reference, status `DELIVERY_ING`, and a non-Naver-pay
payment method is classified as a `complete_delivery` candidate; every other
case is a skip with its corresponding counter — in particular
`DELIVERY_ING` with a disallowed (Naver-pay) payment method is a skip, not a
candidate; and a record without a truthy `arrivalAt` never even reaches
classification. -/
theorem c4_completion_gating (lookup : String → Option ShopbyOrderDetail)
    (order : CornerOrder) (d : ShopbyOrderDetail)
    (hl : lookup (updateKey order) = some d) :
    (pyTruthy d.originalDeliveryNo = true → orderStatusOf d = "DELIVERY_ING" →
      is_naver_pay d.payType = false →
      (completionScan lookup order).candidates = [mkCompletionInfo order d]) ∧
    ((completionScan lookup order).candidates ≠ [] →
      pyTruthy d.originalDeliveryNo = true ∧ orderStatusOf d = "DELIVERY_ING" ∧
        is_naver_pay d.payType = false) ∧
    (pyTruthy d.originalDeliveryNo = true → orderStatusOf d = "DELIVERY_ING" →
      is_naver_pay d.payType = true →
      (completionScan lookup order).candidates = [] ∧
        (completionScan lookup order).skips = 1) ∧
    (pyTruthy d.originalDeliveryNo = true → orderStatusOf d = "DELIVERY_DONE" →
      (completionScan lookup order).candidates = [] ∧
        (completionScan lookup order).skips = 1) ∧
    (pyTruthy d.originalDeliveryNo = true →
      ¬(orderStatusOf d = "DELIVERY_ING" ∨ orderStatusOf d = "DELIVERY_DONE") →
      (completionScan lookup order).candidates = [] ∧
        (completionScan lookup order).skips = 1) ∧
    (pyTruthy d.originalDeliveryNo = false →
      (completionScan lookup order).candidates = [] ∧
        (completionScan lookup order).noDeliveryNo = 1) ∧
    (arrivalTruthy order = false →
      get_orders_needing_delivery_completion lookup [order] = []) := by
  refine ⟨?_, ?_, ?_, ?_, ?_, ?_, ?_⟩
  · intro h1 h2 h3
    simp [completionScan, hl, h1, h2, h3]
  · intro hne
    by_cases hcond : pyTruthy d.originalDeliveryNo = true ∧
        orderStatusOf d = "DELIVERY_ING" ∧ is_naver_pay d.payType = false
    · exact hcond
    · exfalso
      apply hne
      simp only [completionScan, hl]
      rw [if_neg hcond]
      split_ifs <;> rfl
  · intro h1 h2 h3
    constructor <;> simp [completionScan, hl, h1, h2, h3]
  · intro h1 h2
    constructor <;> simp [completionScan, hl, h1, h2]
  · intro h1 h2
    push_neg at h2
    constructor <;> simp [completionScan, hl, h1, h2.1, h2.2]
  · intro h1
    constructor <;> simp [completionScan, hl, h1]
  · intro h
    simp [get_orders_needing_delivery_completion, h]

/-- Witness for C4: the arrived Naver-pay order in `DELIVERY_ING` is a skip
and not a candidate, and an order without a truthy arrival timestamp yields
no completion candidates at all. -/
theorem c4_completion_gating_witness :
    ((completionScan lookupNaver orderArrived).candidates = [] ∧
      (completionScan lookupNaver orderArrived).skips = 1) ∧
    get_orders_needing_delivery_completion lookupSynced [orderSynced] = [] :=
  ⟨(c4_completion_gating lookupNaver orderArrived dNaver (by decide)).2.2.1
      (by decide) (by decide) (by decide),
   (c4_completion_gating lookupSynced orderSynced dSynced (by decide)).2.2.2.2.2.2
      (by decide)⟩

/-- C7: `run_full_sync` runs the invoice-update pass (query then batch) and
then the completion pass; an exception raised in either pass — a candidate
query raising, or a batch raising the uncaught `int(shipping_no)`
conversion — makes the whole run return the `status="error"` result
carrying that exception's message, with no partial results; when nothing
raises it returns the `status="completed"` result with the run duration and
both pass results — in every case a structured result is returned rather
than an exception propagating. -/
theorem c7_structured_result (http : MutationCall → Except String Unit)
    (duration : Nat) (dry : Bool)
    (upd : Except String (List UpdateInfo))
    (comp : Except String (List CompletionInfo)) :
    (∀ e, upd = Except.error e →
      run_full_sync http upd comp duration dry = FullSyncResult.error e) ∧
    (∀ uc e, upd = Except.ok uc →
      updatePassResult http uc dry = Except.error e →
      run_full_sync http upd comp duration dry = FullSyncResult.error e) ∧
    (∀ uc us e, upd = Except.ok uc →
      updatePassResult http uc dry = Except.ok us → comp = Except.error e →
      run_full_sync http upd comp duration dry = FullSyncResult.error e) ∧
    (∀ uc us cc e, upd = Except.ok uc →
      updatePassResult http uc dry = Except.ok us → comp = Except.ok cc →
      completionPassResult http cc dry = Except.error e →
      run_full_sync http upd comp duration dry = FullSyncResult.error e) ∧
    (∀ uc us cc csum, upd = Except.ok uc →
      updatePassResult http uc dry = Except.ok us → comp = Except.ok cc →
      completionPassResult http cc dry = Except.ok csum →
      run_full_sync http upd comp duration dry =
        FullSyncResult.completed duration uc.length us cc.length csum dry) ∧
    ((∃ e, run_full_sync http upd comp duration dry = FullSyncResult.error e) ∨
      (∃ n1 s1 n2 s2, run_full_sync http upd comp duration dry =
          FullSyncResult.completed duration n1 s1 n2 s2 dry)) := by
  refine ⟨?_, ?_, ?_, ?_, ?_, ?_⟩
  · rintro e rfl; rfl
  · rintro uc e rfl hbatch
    simp [run_full_sync, hbatch]
  · rintro uc us e rfl hbatch rfl
    simp [run_full_sync, hbatch]
  · rintro uc us cc e rfl hupd rfl hcomp
    simp [run_full_sync, hupd, hcomp]
  · rintro uc us cc csum rfl hupd rfl hcomp
    simp [run_full_sync, hupd, hcomp]
  · cases upd with
    | error e => exact Or.inl ⟨e, rfl⟩
    | ok uc =>
      cases hupd : updatePassResult http uc dry with
      | error e => exact Or.inl ⟨e, by simp [run_full_sync, hupd]⟩
      | ok us =>
        cases comp with
        | error e => exact Or.inl ⟨e, by simp [run_full_sync, hupd]⟩
        | ok cc =>
          cases hcomp : completionPassResult http cc dry with
          | error e => exact Or.inl ⟨e, by simp [run_full_sync, hupd, hcomp]⟩
          | ok csum =>
            exact Or.inr ⟨uc.length, us, cc.length, csum,
              by simp [run_full_sync, hupd, hcomp]⟩

/-- Witness for C7: a raised candidate query yields the error result; an
update batch raising the uncaught `int()` conversion yields the error
result; two clean empty passes yield the completed result. -/
theorem c7_structured_result_witness :
    run_full_sync httpFailB (Except.error "boom") (Except.ok []) 3 true
      = FullSyncResult.error "boom" ∧
    run_full_sync httpOk (Except.ok [uBad]) (Except.ok []) 3 false
      = FullSyncResult.error "invalid literal for int() with base 10" ∧
    run_full_sync httpFailB (Except.ok []) (Except.ok []) 3 true
      = FullSyncResult.completed 3 0 (emptySummary UpdateItemResult true) 0
          (emptySummary CompletionItemResult true) true :=
  ⟨(c7_structured_result httpFailB 3 true (Except.error "boom") (Except.ok [])).1
      "boom" rfl,
   (c7_structured_result httpOk 3 false (Except.ok [uBad]) (Except.ok [])).2.1
      [uBad] "invalid literal for int() with base 10" rfl rfl,
   (c7_structured_result httpFailB 3 true (Except.ok []) (Except.ok [])).2.2.2.2.1
      [] (emptySummary UpdateItemResult true) []
      (emptySummary CompletionItemResult true) rfl rfl rfl rfl⟩

/-- Witness for C2: a two-candidate dry run issues no call and reports two
simulated successes. -/
theorem c2_dry_run_is_pure_witness :
    (∃ us, batch_update_orders httpFailB [uA, uB] true = Except.ok (us, []) ∧
      us.success_count = [uA, uB].length ∧ us.failure_count = 0 ∧
      us.results.length = [uA, uB].length ∧
      ∀ r ∈ us.results, r.success = true) ∧
    (∃ csum, batch_complete_deliveries httpFailB ([] : List CompletionInfo) true
        = Except.ok (csum, []) ∧
      csum.success_count = ([] : List CompletionInfo).length ∧
      csum.failure_count = 0 ∧
      csum.results.length = ([] : List CompletionInfo).length ∧
      ∀ r ∈ csum.results, r.success = true) :=
  c2_dry_run_is_pure httpFailB [uA, uB] []

/-- Witness for C3: on parse-clean candidates with the second of three PUTs
failing, the batch returns a full summary — all three results in input
order, every PUT issued. -/
theorem c3_failure_isolation_witness :
    ∃ us ucalls,
      batch_update_orders httpFailB [uA, uB, uC] false = Except.ok (us, ucalls) ∧
      us.results.map (fun r => r.order_no)
        = [uA, uB, uC].map (fun u => u.shopby_order_no) ∧
      us.results.map (fun r => r.success)
        = [uA, uB, uC].map (fun u => httpSucceeds httpFailB (updateCallOf u)) ∧
      ucalls = [uA, uB, uC].map updateCallOf :=
  (c3_failure_isolation httpFailB [uA, uB, uC] [] (by decide) (by decide)).1

/-- Witness for C10: the accounting invariant of the summary a concrete
dry-run batch returns, and dry-run totality on a concrete list. -/
theorem c10_accounting_witness :
    ((⟨1, 1, 0, true, [⟨"A", some "11", some "1001", true⟩]⟩ :
        SyncSummary UpdateItemResult).total_processed = [uA].length ∧
      (⟨1, 1, 0, true, [⟨"A", some "11", some "1001", true⟩]⟩ :
        SyncSummary UpdateItemResult).results.length = [uA].length ∧
      (⟨1, 1, 0, true, [⟨"A", some "11", some "1001", true⟩]⟩ :
        SyncSummary UpdateItemResult).results.map (fun r => r.order_no)
        = [uA].map (fun u => u.shopby_order_no) ∧
      (⟨1, 1, 0, true, [⟨"A", some "11", some "1001", true⟩]⟩ :
          SyncSummary UpdateItemResult).success_count
        + (⟨1, 1, 0, true, [⟨"A", some "11", some "1001", true⟩]⟩ :
            SyncSummary UpdateItemResult).failure_count
        = (⟨1, 1, 0, true, [⟨"A", some "11", some "1001", true⟩]⟩ :
            SyncSummary UpdateItemResult).total_processed ∧
      (⟨1, 1, 0, true, [⟨"A", some "11", some "1001", true⟩]⟩ :
        SyncSummary UpdateItemResult).dry_run = true) ∧
    (∃ us ucalls,
      batch_update_orders httpFailB [uA] true = Except.ok (us, ucalls)) :=
  ⟨(c10_accounting httpFailB true [uA] []).1
      ⟨1, 1, 0, true, [⟨"A", some "11", some "1001", true⟩]⟩ [] rfl,
   (c10_accounting httpFailB true [uA] []).2.2.1⟩
